import Mathlib

/-!
# Model Runtime Lifecycle & Generation Controller — shallow embedding

This file embeds the native controller of `react-native-fastvlm`
(`FastVLMWrapper` in `ios/FastVLMWrapper.swift` and the module surface in
`ios/FastVLMModule.swift`) and proves properties of its lifecycle state
machine, download/install path, single-flight streaming generation, and
embedding extraction.

External effects (network transport, zip archive, the MLX inference
engine, the tokenizer, wall-clock times) are abstracted as explicit
environment records whose fields stand for the values those collaborators
return; everything the controller itself computes (guards, state
transitions, event construction, the token-callback cadence) is translated
directly from the Swift source.
-/

namespace FastVLM

/-- A value stored in the `[String: Any]` configuration dictionary passed to
`initialize`. -/
inductive ConfigValue
  | str (s : String)
  | int (n : Int)
  | bool (b : Bool)
deriving DecidableEq, Repr

/-- The `[String: Any]` configuration dictionary, as an association list. -/
abbrev Config := List (String × ConfigValue)

/-- Dictionary lookup `config?["key"]`. -/
def lookupConfig (c : Config) (k : String) : Option ConfigValue :=
  (c.find? (fun kv => kv.1 == k)).map (·.2)

/-- Swift `as? String` cast. -/
def ConfigValue.asStr : ConfigValue → Option String
  | .str s => some s
  | _ => none

/-- Swift `as? Int` cast. -/
def ConfigValue.asInt : ConfigValue → Option Int
  | .int n => some n
  | _ => none

/-- `FastVLMWrapper.LoadState` (FastVLMWrapper.swift line 41): whether an
engine (`ModelContainer`) is currently held. The container itself is
opaque, so only the tag is modelled. -/
inductive LoadState
  | idle
  | loaded
deriving DecidableEq, Repr

/-- `FastVLMWrapper.State` (FastVLMWrapper.swift line 49). -/
inductive State
  | idle
  | downloading
  | extracting
  | loading
  | loaded
  | error
deriving DecidableEq, Repr

/-- `State.rawValue`. -/
def State.rawValue : State → String
  | .idle => "idle"
  | .downloading => "downloading"
  | .extracting => "extracting"
  | .loading => "loading"
  | .loaded => "loaded"
  | .error => "error"

/-- `FastVLMError` (FastVLMModule.swift line 283). -/
inductive FastVLMError
  | notInitialized
  | downloadFailed
  | loadFailed (reason : String)
  | invalidInput (reason : String)
  | generationFailed (reason : String)
  | embeddingFailed (reason : String)
deriving DecidableEq, Repr

/-- `GenerateParamsData` (FastVLMModule.swift line 321). `maxTokens`
defaults to 240. -/
structure GenerateParamsData where
  temperature : ℚ := 0
  maxTokens : Nat := 240
  topP : ℚ := 1
  seed : Option Nat := none
deriving DecidableEq, Repr

/-- `TokenEventData` (FastVLMModule.swift line 336); forwarded field-for-field
as the `onToken` host-bridge event by `generateStream`. -/
structure TokenEventData where
  text : String
  newTokens : String
  tokenCount : Nat
  isComplete : Bool
deriving DecidableEq, Repr

/-- `GenerateResultData` (FastVLMModule.swift line 328). Times are taken
from the abstract clock of the run. -/
structure GenerateResultData where
  output : String
  promptTimeMs : ℚ
  totalTimeMs : ℚ
  tokenCount : Nat
  tokensPerSecond : ℚ
deriving DecidableEq, Repr

/-- `EmbeddingResultData` (FastVLMModule.swift line 343). -/
structure EmbeddingResultData where
  embedding : List ℚ
  dimensions : Nat
deriving DecidableEq, Repr

/-- The mutable fields of `FastVLMWrapper` (FastVLMWrapper.swift lines
34-58). `currentTask` records whether a task handle is held (the Swift
field is an optional `Task`; only its presence is observable here). -/
structure Wrapper where
  config : Option Config := none
  running : Bool := false
  modelInfo : String := ""
  output : String := ""
  loadState : LoadState := .idle
  currentTask : Bool := false
  state : State := .idle
deriving DecidableEq, Repr

/-- The platform's Application Support directory (an abstract absolute
path; the controller only ever appends to it). -/
def applicationSupportDirectory : String := "/ApplicationSupport"

/-- `FastVLMWrapper.modelDirectory` (FastVLMWrapper.swift lines 61-67):
reads dictionary key `"modelPath"`, falling back to
`<Application Support>/FastVLM/model`. -/
def Wrapper.modelDirectory (w : Wrapper) : String :=
  match w.config.bind (fun c => (lookupConfig c "modelPath").bind ConfigValue.asStr) with
  | some customPath => customPath
  | none => applicationSupportDirectory ++ "/FastVLM/model"

/-- The GPU cache limit set by `load()` (FastVLMWrapper.swift line 235):
`config?["gpuCacheLimit"] as? Int ?? 20 * 1024 * 1024`. -/
def gpuCacheLimitOf (config : Option Config) : Int :=
  (config.bind (fun c => (lookupConfig c "gpuCacheLimit").bind ConfigValue.asInt)).getD
    (20 * 1024 * 1024)

/-- `getState()` (FastVLMWrapper.swift line 99). -/
def getState (w : Wrapper) : String := w.state.rawValue

/-- `isGenerating()` (FastVLMWrapper.swift line 103). -/
def isGenerating (w : Wrapper) : Bool := w.running

/-- `displayEveryNTokens` (FastVLMWrapper.swift line 75): streaming
emission cadence. -/
def displayEveryNTokens : Nat := 4

/-- A progress callback invocation `(fraction, status)`; `downloadModel`
forwards each one as an `onDownloadProgress` host-bridge event
(FastVLMModule.swift lines 54-61). -/
structure ProgressEvent where
  fraction : ℚ
  status : String
deriving DecidableEq, Repr

/-- Abstract behaviour of the download transport and zip archive for one
`ensureModelAvailable` run: what the collaborators report and whether each
phase throws. -/
structure InstallerEnv where
  /-- `config.json` already exists in the model directory. -/
  markerExists : Bool
  /-- byte-progress fractions reported by the URLSession transport -/
  dlProgress : List ℚ := []
  /-- the download task throws -/
  dlFails : Bool := false
  /-- entry count of the downloaded archive -/
  extractEntries : Nat := 0
  /-- archive extraction throws -/
  extractFails : Bool := false
  /-- the final move into the cache directory throws -/
  copyFails : Bool := false
deriving DecidableEq, Repr

/-- Percent-formatted status string, Swift
`String(format: "... %d%%", Int(progress * 100))`. -/
def pctStatus (pre : String) (p : ℚ) : String :=
  pre ++ toString ⌊p * 100⌋ ++ "%"

/-- `ensureModelAvailable` (FastVLMWrapper.swift lines 127-168). Returns
`(success, state after the run, progress events emitted, number of
network/filesystem operations performed)`. The operation count abstracts
the actual I/O; it is zero exactly on the marker-file early return (line
129), which performs no work. -/
def ensureModelAvailable (env : InstallerEnv) (st : State) :
    Bool × State × List ProgressEvent × Nat :=
  if env.markerExists then
    (true, st, [], 0)
  else
    let dlEv := env.dlProgress.map fun p => ProgressEvent.mk p (pctStatus "Downloading " p)
    if env.dlFails then
      (false, st, dlEv, 3)
    else
      let exHeader : ProgressEvent := ⟨0, "Extracting 0%"⟩
      if env.extractFails then
        (false, State.extracting, dlEv ++ [exHeader], 4)
      else
        let exEv := (List.range env.extractEntries).map fun i =>
          let p : ℚ := (i + 1 : ℚ) / (env.extractEntries : ℚ)
          ProgressEvent.mk p (pctStatus "Extracting " p)
        let finEv : ProgressEvent := ⟨1, "Finalizing..."⟩
        if env.copyFails then
          (false, State.extracting, dlEv ++ exHeader :: exEv ++ [finEv], 4 + env.extractEntries)
        else
          (true, State.extracting, dlEv ++ exHeader :: exEv ++ [finEv], 5 + env.extractEntries)

/-- Whether one installer run succeeds (no phase throws, or the marker
short-circuits everything). -/
def installerOk (env : InstallerEnv) : Prop :=
  env.markerExists = true ∨ (env.dlFails = false ∧ env.extractFails = false ∧ env.copyFails = false)

instance (env : InstallerEnv) : Decidable (installerOk env) := by
  unfold installerOk; infer_instance

/-- `download(progressHandler:)` (FastVLMWrapper.swift lines 109-125).
Returns `(wrapper, progress events, work count, returned Bool)`. -/
def download (env : InstallerEnv) (w : Wrapper) :
    Wrapper × List ProgressEvent × Nat × Bool :=
  let w1 : Wrapper := { w with state := State.downloading }
  let ev0 : ProgressEvent := ⟨0, "Downloading..."⟩
  let r := ensureModelAvailable env w1.state
  if r.1 then
    ({ w1 with state := r.2.1 }, ev0 :: r.2.2.1 ++ [⟨1, "Download complete"⟩], r.2.2.2, true)
  else
    ({ w1 with state := State.error }, ev0 :: r.2.2.1, r.2.2.2, false)

/-- Abstract behaviour of `VLMModelFactory.shared.loadContainer` for one
`load()` run. -/
structure LoadEnv where
  installer : InstallerEnv
  engineLoadOk : Bool := true
deriving DecidableEq, Repr

/-- `load()` (FastVLMWrapper.swift lines 228-258). Sets `state = .loading`
first; in the `.idle` case it sets the GPU cache limit, ensures the model
is installed, and constructs the engine; in the `.loaded` case it returns
at once (without restoring `state`). -/
def load (env : LoadEnv) (w : Wrapper) : Wrapper × Except FastVLMError Unit :=
  let w1 : Wrapper := { w with state := State.loading }
  match w1.loadState with
  | .loaded => (w1, Except.ok ())
  | .idle =>
    let r := ensureModelAvailable env.installer w1.state
    if r.1 then
      if env.engineLoadOk then
        ({ w1 with loadState := LoadState.loaded, state := State.loaded,
                   modelInfo := "Loaded" }, Except.ok ())
      else
        ({ w1 with state := r.2.1 }, Except.error (FastVLMError.loadFailed "engine"))
    else
      ({ w1 with state := r.2.1 }, Except.error (FastVLMError.loadFailed "install"))

/-- `unload()` (FastVLMWrapper.swift lines 260-275). -/
def unload (w : Wrapper) : Wrapper × Bool :=
  let w1 : Wrapper := { w with currentTask := false, running := false }
  match w1.loadState with
  | .idle => (w1, false)
  | .loaded =>
    ({ w1 with loadState := LoadState.idle, state := State.idle,
               modelInfo := "Unloaded" }, true)

/-- `onModelStateChange` host-bridge event payload. -/
structure StateChangeEvent where
  state : String
  message : String
deriving DecidableEq, Repr

/-- `unloadModel` (FastVLMModule.swift lines 103-118): calls `unload()`
and emits `onModelStateChange` only when it returned true. -/
def unloadModel (w : Wrapper) : Wrapper × Bool × List StateChangeEvent :=
  let r := unload w
  (r.1, r.2, if r.2 then [⟨"idle", "Model unloaded"⟩] else [])

/-- `cancel()` (FastVLMWrapper.swift lines 432-437). -/
def cancel (w : Wrapper) : Wrapper :=
  { w with currentTask := false, running := false, output := "" }

/-- Abstract behaviour of the inference engine, tokenizer and clock for
one `generate` run. `decode k` is `context.tokenizer.decode` applied to
the first `k` generated tokens (the engine's callback receives the
cumulative token list, one new token per invocation). `output` is
`genResult.output`. `prepareFails` stands for `prepareUserInput` throwing
(lines 399-429: unreadable image file, bad URI); `performFails` for
`context.processor.prepare` or the engine call throwing inside
`modelContainer.perform`. -/
structure EngineRun where
  decode : Nat → String
  output : String
  prepareFails : Bool := false
  performFails : Bool := false
  promptTimeMs : ℚ := 0
  totalTimeMs : ℚ := 0

/-- The mutable locals of the token callback (FastVLMWrapper.swift lines
299-321): `tokenCount`, `seenFirstToken`, `lastText`, `promptTimeMs`, and
the token events emitted so far. -/
structure CBState where
  seenFirstToken : Bool := false
  lastText : String := ""
  tokenCount : Nat := 0
  promptTimeMs : ℚ := 0
  events : List TokenEventData := []
deriving Repr

/-- One invocation of the token callback (FastVLMWrapper.swift lines
327-364) with the cumulative token count `k`. -/
def stepCB (eng : EngineRun) (stream : Bool) (s : CBState) (k : Nat) : CBState :=
  let s := { s with tokenCount := k }
  let s :=
    if !s.seenFirstToken then
      let text := eng.decode k
      { s with seenFirstToken := true, promptTimeMs := eng.promptTimeMs, lastText := text,
               events := s.events ++ (if stream then [⟨text, text, k, false⟩] else []) }
    else s
  if stream ∧ k % displayEveryNTokens = 0 then
    let text := eng.decode k
    let newTokens := text.drop s.lastText.length
    { s with lastText := text,
             events := s.events ++ [⟨text, newTokens, k, false⟩] }
  else s

/-- The engine's incremental loop: it invokes the callback with counts
`k, k+1, ...` for `fuel` steps (the callback returns `.stop` at the first
count `≥ maxTokens`, so the loop below is driven with exactly
`max maxTokens 1` invocations). -/
def runLoop (eng : EngineRun) (stream : Bool) : CBState → Nat → Nat → CBState
  | s, _, 0 => s
  | s, k, fuel + 1 => runLoop eng stream (stepCB eng stream s k) (k + 1) fuel

/-- The complete callback history of one generation: counts start at 1 and
stop at the first count `≥ maxTokens` (FastVLMWrapper.swift lines
359-363). -/
def genLoop (eng : EngineRun) (stream : Bool) (maxTokens : Nat) : CBState :=
  runLoop eng stream {} 1 (max maxTokens 1)

/-- `generate(input:params:stream:onToken:)` (FastVLMWrapper.swift lines
279-396). Returns `(wrapper after the call, token events emitted, result
or thrown error)`. The error paths return the wrapper exactly as mutated
up to the throw point. -/
def generate (eng : EngineRun) (params : GenerateParamsData) (stream : Bool)
    (w : Wrapper) :
    Wrapper × List TokenEventData × Except FastVLMError GenerateResultData :=
  if w.loadState ≠ LoadState.loaded then
    (w, [], Except.error FastVLMError.notInitialized)
  else if w.running then
    (w, [], Except.error (FastVLMError.generationFailed "Generation already in progress"))
  else
    let w1 : Wrapper := { w with running := true, output := "" }
    if eng.prepareFails then
      (w1, [], Except.error (FastVLMError.invalidInput "Could not prepare input"))
    else if eng.performFails then
      (w1, [], Except.error (FastVLMError.generationFailed "engine failure"))
    else
      let s := genLoop eng stream params.maxTokens
      let tps : ℚ := if 0 < eng.totalTimeMs then (s.tokenCount : ℚ) / (eng.totalTimeMs / 1000) else 0
      let finalEv : List TokenEventData :=
        if stream then [⟨eng.output, "", s.tokenCount, true⟩] else []
      ({ w1 with output := eng.output, running := false },
       s.events ++ finalEv,
       Except.ok ⟨eng.output, s.promptTimeMs, eng.totalTimeMs, s.tokenCount, tps⟩)

/-- Abstract behaviour of the engine's embedding capability for one
embedding call: whether the capability casts succeed, whether the image
reference resolves to pixel data, and the mean-pooled vectors the engine
returns. -/
structure EmbedEnv where
  supportsTextEmbedding : Bool := true
  supportsVisionEmbedding : Bool := true
  imageResolves : Bool := true
  textPooled : String → List ℚ := fun _ => []
  imagePooled : List ℚ := []

/-- `getTextEmbedding(text:)` (FastVLMWrapper.swift lines 441-475). -/
def getTextEmbedding (env : EmbedEnv) (text : String) (w : Wrapper) :
    Except FastVLMError EmbeddingResultData :=
  if w.loadState ≠ LoadState.loaded then
    Except.error FastVLMError.notInitialized
  else if !env.supportsTextEmbedding then
    Except.error (FastVLMError.embeddingFailed "Model does not support embeddings")
  else
    let v := env.textPooled text
    Except.ok ⟨v, v.length⟩

/-- `getImageEmbedding(image:)` (FastVLMWrapper.swift lines 477-523). -/
def getImageEmbedding (env : EmbedEnv) (w : Wrapper) :
    Except FastVLMError EmbeddingResultData :=
  if w.loadState ≠ LoadState.loaded then
    Except.error FastVLMError.notInitialized
  else if !env.imageResolves then
    Except.error (FastVLMError.invalidInput "Could not load image")
  else if !env.supportsVisionEmbedding then
    Except.error (FastVLMError.embeddingFailed "Model does not support vision embeddings")
  else
    Except.ok ⟨env.imagePooled, env.imagePooled.length⟩

/-- Wellformedness of a streamed event list with current token count `c`:
counts are non-decreasing and bounded by `c`, and no event from inside the
callback is marked complete. -/
def EvWF (ev : List TokenEventData) (c : Nat) : Prop :=
  List.Chain' (fun a b => a.tokenCount ≤ b.tokenCount) ev
  ∧ (∀ e ∈ ev, e.isComplete = false)
  ∧ (∀ e ∈ ev, e.tokenCount ≤ c)

/-- A concrete engine run used by witnesses: the first `k` tokens decode
to `k` copies of `a`. -/
def engSample : EngineRun :=
  { decode := fun k => String.mk (List.replicate k 'a'),
    output := "aaaaaaaa", promptTimeMs := 5, totalTimeMs := 100 }

/-- A concrete engine run whose input preparation throws. -/
def engPrepFail : EngineRun :=
  { decode := fun k => String.mk (List.replicate k 'a'),
    output := "", prepareFails := true }

/-- A wrapper holding a loaded engine. -/
def wLoaded : Wrapper :=
  { loadState := LoadState.loaded, state := State.loaded, modelInfo := "Loaded" }

/-- A loaded wrapper with a generation in flight. -/
def wRunning : Wrapper := { wLoaded with running := true }

/-- An installer environment whose marker file is already present. -/
def markerEnv : InstallerEnv := { markerExists := true }

/-- A load environment in which every collaborator succeeds. -/
def loadEnvOk : LoadEnv := { installer := markerEnv }

/-- C1: a `generate` call issued while a generation is already running on
a loaded controller fails immediately with the already-in-progress error,
emits no token events, and leaves the wrapper — running flag, accumulated
output, and every other field — exactly as it was. -/
theorem generate_single_flight (eng : EngineRun) (params : GenerateParamsData)
    (stream : Bool) (w : Wrapper)
    (hl : w.loadState = LoadState.loaded) (hr : w.running = true) :
    generate eng params stream w =
      (w, [], Except.error (FastVLMError.generationFailed "Generation already in progress")) := by
  simp [generate, hl, hr]

/-- Witness for C1 at a concrete loaded, running wrapper. -/
theorem generate_single_flight_witness :
    generate engSample {} true wRunning =
      (wRunning, [],
       Except.error (FastVLMError.generationFailed "Generation already in progress")) :=
  generate_single_flight engSample {} true wRunning rfl rfl

/-- C2: `generate`, `getTextEmbedding` and `getImageEmbedding` fail with
the not-ready error exactly when no engine is held (`loadState` idle), and
pass that precondition check — never producing `notInitialized` — exactly
when an engine is held. -/
theorem ops_fail_notReady_iff_not_loaded (eng : EngineRun) (params : GenerateParamsData)
    (stream : Bool) (env : EmbedEnv) (text : String) (w : Wrapper) :
    ((generate eng params stream w).2.2 = Except.error FastVLMError.notInitialized
        ↔ w.loadState ≠ LoadState.loaded)
    ∧ (getTextEmbedding env text w = Except.error FastVLMError.notInitialized
        ↔ w.loadState ≠ LoadState.loaded)
    ∧ (getImageEmbedding env w = Except.error FastVLMError.notInitialized
        ↔ w.loadState ≠ LoadState.loaded) := by
  refine ⟨?_, ?_, ?_⟩
  · cases h : w.loadState <;>
      cases hr : w.running <;>
        cases hp : eng.prepareFails <;>
          cases hq : eng.performFails <;>
            simp [generate, h, hr, hp, hq]
  · cases h : w.loadState <;>
      cases hs : env.supportsTextEmbedding <;>
        simp [getTextEmbedding, h, hs]
  · cases h : w.loadState <;>
      cases hi : env.imageResolves <;>
        cases hs : env.supportsVisionEmbedding <;>
          simp [getImageEmbedding, h, hi, hs]

/-- C8: `unload()` always clears the in-flight generation (running flag
and task handle); with an engine held it releases it, sets state idle and
returns true, and the module emits one `onModelStateChange` event; with
nothing loaded it returns false and no event is emitted. -/
theorem unloadModel_spec (w : Wrapper) :
    unloadModel w =
      if w.loadState = LoadState.loaded then
        ({ w with currentTask := false, running := false, loadState := LoadState.idle,
                  state := State.idle, modelInfo := "Unloaded" },
         true, [⟨"idle", "Model unloaded"⟩])
      else
        ({ w with currentTask := false, running := false }, false, []) := by
  cases h : w.loadState <;> simp [unloadModel, unload, h]

/-- C9: the native controller reads configuration key `"modelPath"`, so
the documented `modelDirectory` option is silently ignored and the default
Application Support cache path is used; `gpuCacheLimit` behaves as
documented, defaulting to 20 * 1024 * 1024 bytes. -/
theorem modelDirectory_key_mismatch :
    Wrapper.modelDirectory
        { config := some [("modelDirectory", ConfigValue.str "/custom/models")] }
      = applicationSupportDirectory ++ "/FastVLM/model"
    ∧ Wrapper.modelDirectory
        { config := some [("modelDirectory", ConfigValue.str "/custom/models")] }
      ≠ "/custom/models"
    ∧ Wrapper.modelDirectory
        { config := some [("modelPath", ConfigValue.str "/custom/models")] }
      = "/custom/models"
    ∧ gpuCacheLimitOf none = 20 * 1024 * 1024
    ∧ gpuCacheLimitOf (some [("gpuCacheLimit", ConfigValue.int 1024)]) = 1024 := by
  refine ⟨rfl, ?_, rfl, rfl, rfl⟩
  decide

/-- C3 counterexample: with the marker file already present, `download()`
succeeds (returns true) yet the state afterwards is `downloading`, not
`loaded` — `load` is never invoked on the success path. -/
theorem download_no_load_counterexample :
    ¬ ((download markerEnv {}).2.2.2 = true → (download markerEnv {}).1.state = State.loaded) := by
  decide

/-- C3 (amended): `download()` first sets `downloading` and runs the
installer (which sets `extracting` when extraction work occurs); it never
invokes `load`, so `loadState` is untouched and the state after a
successful call is `downloading` (marker present) or `extracting` (work
performed), never `loaded`; on any installer failure the state becomes
`error` and false is returned. -/
theorem download_transitions (env : InstallerEnv) (w : Wrapper) :
    (download env w).1.loadState = w.loadState
    ∧ (download env w).2.2.2 = decide (installerOk env)
    ∧ (download env w).1.state =
        (if installerOk env then
           (if env.markerExists = true then State.downloading else State.extracting)
         else State.error) := by
  cases hm : env.markerExists <;> cases hd : env.dlFails <;>
    cases he : env.extractFails <;> cases hc : env.copyFails <;>
      simp [download, ensureModelAvailable, installerOk, hm, hd, he, hc]

/-- C4 counterexample: with the marker file present, `download()` returns
true and performs zero installer work, but emits two progress events
rather than none. -/
theorem download_marker_events_counterexample :
    (download markerEnv {}).2.2.2 = true
    ∧ (download markerEnv {}).2.2.1 = 0
    ∧ ¬ ((download markerEnv {}).2.1 = []) := by
  decide

/-- C4 (amended): when the marker file exists `download()` returns true
and performs no network or filesystem work, but it emits exactly two
`onDownloadProgress` events — `(0, "Downloading...")` and
`(1, "Download complete")` — and leaves the state at `downloading`. -/
theorem download_marker_fast_path (env : InstallerEnv) (w : Wrapper)
    (hm : env.markerExists = true) :
    download env w =
      ({ w with state := State.downloading },
       [⟨0, "Downloading..."⟩, ⟨1, "Download complete"⟩], 0, true) := by
  simp [download, ensureModelAvailable, hm]

/-- Witness for the amended C4 at a concrete environment. -/
theorem download_marker_fast_path_witness :
    download markerEnv {} =
      ({ state := State.downloading },
       [⟨0, "Downloading..."⟩, ⟨1, "Download complete"⟩], 0, true) :=
  download_marker_fast_path markerEnv {} rfl

/-- C7 counterexample: calling `load()` with an engine already held
returns success and keeps the engine, but `getState()` afterwards reports
"loading", not the "loaded" it reported before the call. -/
theorem load_reentrant_state_counterexample :
    (load loadEnvOk wLoaded).2 = Except.ok ()
    ∧ (load loadEnvOk wLoaded).1.loadState = LoadState.loaded
    ∧ ¬ (getState (load loadEnvOk wLoaded).1 = getState wLoaded) := by
  refine ⟨rfl, rfl, ?_⟩
  decide

/-- C7 (amended): `load()` with an engine already held returns without
error and does not reconstruct the engine, but it first sets `state` to
`loading` and the already-loaded branch never restores it, so the call is
observable: `getState()` afterwards reports "loading" rather than
"loaded". -/
theorem load_reentrant (env : LoadEnv) (w : Wrapper)
    (h : w.loadState = LoadState.loaded) :
    load env w = ({ w with state := State.loading }, Except.ok ()) := by
  simp [load, h]

/-- Witness for the amended C7 at a concrete loaded wrapper. -/
theorem load_reentrant_witness :
    load loadEnvOk wLoaded = ({ wLoaded with state := State.loading }, Except.ok ()) :=
  load_reentrant loadEnvOk wLoaded rfl

/-- An element of `getLast?` is an element of the list. -/
theorem mem_of_mem_getLast {α : Type _} (l : List α) (x : α) (h : x ∈ l.getLast?) :
    x ∈ l := by
  obtain ⟨hne, hx⟩ := List.mem_getLast?_eq_getLast h
  subst hx
  exact List.getLast_mem hne

/-- `EvWF` is monotone in the count bound. -/
theorem EvWF.mono (ev : List TokenEventData) (c c' : Nat) (h : EvWF ev c) (hc : c ≤ c') :
    EvWF ev c' :=
  ⟨h.1, h.2.1, fun e he => le_trans (h.2.2 e he) hc⟩

/-- Appending one event whose count dominates the list keeps the counts
chained. -/
theorem chain'_tokenCount_concat (l : List TokenEventData) (e : TokenEventData)
    (hl : List.Chain' (fun a b => a.tokenCount ≤ b.tokenCount) l)
    (hle : ∀ x ∈ l, x.tokenCount ≤ e.tokenCount) :
    List.Chain' (fun a b => a.tokenCount ≤ b.tokenCount) (l ++ [e]) := by
  rw [List.chain'_append]
  refine ⟨hl, List.chain'_singleton e, ?_⟩
  intro x hx y hy
  have hy' : e = y := by simpa using hy
  subst hy'
  exact hle x (mem_of_mem_getLast l x hx)

/-- `EvWF` is preserved by appending one incomplete event at the current
count. -/
theorem EvWF.concat (ev : List TokenEventData) (c : Nat) (e : TokenEventData)
    (h : EvWF ev c) (he : e.tokenCount = c) (hic : e.isComplete = false) :
    EvWF (ev ++ [e]) c := by
  refine ⟨chain'_tokenCount_concat ev e h.1 (fun x hx => he ▸ h.2.2 x hx), ?_, ?_⟩
  · intro x hx
    rcases List.mem_append.1 hx with hx | hx
    · exact h.2.1 x hx
    · simp only [List.mem_singleton] at hx
      subst hx
      exact hic
  · intro x hx
    rcases List.mem_append.1 hx with hx | hx
    · exact h.2.2 x hx
    · simp only [List.mem_singleton] at hx
      subst hx
      exact le_of_eq he

/-- `EvWF` is preserved by appending any block of incomplete events all
carrying the current count. -/
theorem EvWF.append_const (c : Nat) (new : List TokenEventData)
    (hnew : ∀ e ∈ new, e.tokenCount = c ∧ e.isComplete = false) :
    ∀ ev : List TokenEventData, EvWF ev c → EvWF (ev ++ new) c := by
  induction new with
  | nil => intro ev h; simpa using h
  | cons a t ih =>
    intro ev h
    have ha := hnew a (List.mem_cons_self a t)
    have h1 : EvWF (ev ++ [a]) c := EvWF.concat ev c a h ha.1 ha.2
    have h2 := ih (fun e he => hnew e (List.mem_cons_of_mem a he)) (ev ++ [a]) h1
    simpa [List.append_assoc] using h2

/-- One callback invocation at count `k ≥` the current count keeps the
event list wellformed and records `tokenCount = k`. -/
theorem stepCB_EvWF (eng : EngineRun) (stream : Bool) (s : CBState) (k : Nat)
    (h : EvWF s.events s.tokenCount) (hk : s.tokenCount ≤ k) :
    EvWF (stepCB eng stream s k).events k ∧ (stepCB eng stream s k).tokenCount = k := by
  have h' : EvWF s.events k := EvWF.mono _ _ _ h hk
  cases hst : stream <;> cases h1 : s.seenFirstToken <;>
    by_cases hk4 : k % displayEveryNTokens = 0 <;>
      simp [stepCB, hst, h1, hk4] <;>
      first
        | exact h'
        | exact ⟨h', rfl⟩
        | exact EvWF.append_const k _ (by simp) s.events h'

/-- Driving the callback for `fuel` steps starting at a count above the
current one keeps the event list wellformed. -/
theorem runLoop_EvWF (eng : EngineRun) (stream : Bool) :
    ∀ (fuel k : Nat) (s : CBState), EvWF s.events s.tokenCount → s.tokenCount ≤ k →
      EvWF (runLoop eng stream s k fuel).events (runLoop eng stream s k fuel).tokenCount := by
  intro fuel
  induction fuel with
  | zero => intro k s h _; simpa [runLoop] using h
  | succ n ih =>
    intro k s h hk
    have hs := stepCB_EvWF eng stream s k h hk
    have h1 : EvWF (stepCB eng stream s k).events (stepCB eng stream s k).tokenCount := by
      rw [hs.2]; exact hs.1
    have h2 : (stepCB eng stream s k).tokenCount ≤ k + 1 := by
      rw [hs.2]; exact Nat.le_succ k
    simpa [runLoop] using ih (k + 1) (stepCB eng stream s k) h1 h2

/-- The full callback history of one generation is wellformed. -/
theorem genLoop_EvWF (eng : EngineRun) (stream : Bool) (N : Nat) :
    EvWF (genLoop eng stream N).events (genLoop eng stream N).tokenCount := by
  have h0 : EvWF ([] : List TokenEventData) 0 := ⟨List.chain'_nil, by simp, by simp⟩
  simpa [genLoop] using runLoop_EvWF eng stream (max N 1) 1 {} h0 (Nat.zero_le 1)

/-- C5: a successful streaming generation emits token events whose
`tokenCount` values are non-decreasing; the last emitted event is the
final one — `isComplete = true`, empty `newTokens`, text equal to the
returned full output — and every earlier event has `isComplete = false`. -/
theorem generate_stream_event_shape (eng : EngineRun) (params : GenerateParamsData)
    (w : Wrapper)
    (hl : w.loadState = LoadState.loaded) (hr : w.running = false)
    (hp : eng.prepareFails = false) (hq : eng.performFails = false) :
    ∃ res : GenerateResultData,
      (generate eng params true w).2.2 = Except.ok res
      ∧ (generate eng params true w).2.1.getLast? =
          some ⟨res.output, "", res.tokenCount, true⟩
      ∧ List.Chain' (fun a b => a.tokenCount ≤ b.tokenCount)
          (generate eng params true w).2.1
      ∧ (∀ e ∈ (generate eng params true w).2.1.dropLast, e.isComplete = false) := by
  have hwf := genLoop_EvWF eng true params.maxTokens
  have hev : (generate eng params true w).2.1
      = (genLoop eng true params.maxTokens).events ++
        [⟨eng.output, "", (genLoop eng true params.maxTokens).tokenCount, true⟩] := by
    simp [generate, hl, hr, hp, hq]
  have hres : (generate eng params true w).2.2
      = Except.ok ⟨eng.output, (genLoop eng true params.maxTokens).promptTimeMs,
                   eng.totalTimeMs, (genLoop eng true params.maxTokens).tokenCount,
                   if 0 < eng.totalTimeMs
                   then ((genLoop eng true params.maxTokens).tokenCount : ℚ) /
                     (eng.totalTimeMs / 1000)
                   else 0⟩ := by
    simp [generate, hl, hr, hp, hq]
  refine ⟨_, hres, ?_, ?_, ?_⟩
  · rw [hev]
    exact List.getLast?_concat _
  · rw [hev]
    exact chain'_tokenCount_concat _ _ hwf.1 (fun x hx => hwf.2.2 x hx)
  · rw [hev, List.dropLast_concat]
    exact hwf.2.1

/-- Witness for C5 at a concrete engine run with maxTokens = 8. -/
theorem generate_stream_event_shape_witness :
    ∃ res : GenerateResultData,
      (generate engSample { maxTokens := 8 } true wLoaded).2.2 = Except.ok res
      ∧ (generate engSample { maxTokens := 8 } true wLoaded).2.1.getLast? =
          some ⟨res.output, "", res.tokenCount, true⟩
      ∧ List.Chain' (fun a b => a.tokenCount ≤ b.tokenCount)
          (generate engSample { maxTokens := 8 } true wLoaded).2.1
      ∧ (∀ e ∈ (generate engSample { maxTokens := 8 } true wLoaded).2.1.dropLast,
          e.isComplete = false) :=
  generate_stream_event_shape engSample { maxTokens := 8 } wLoaded rfl rfl rfl rfl

/-- C6 counterexample: with maxTokens = 8 and cadence 4 the stream emits
four events, at token counts 1, 4, 8 and 8 — the count-8 cadence event is
followed by the final complete event at the same count — not three events
at counts 1, 4 and 8. -/
theorem generate_cadence8_counterexample :
    ¬ ((generate engSample { maxTokens := 8 } true wLoaded).2.1.map
        TokenEventData.tokenCount = [1, 4, 8]) := by
  decide

/-- C6 (amended): for a streaming generation with maxTokens = 8 and
cadence 4, exactly four events are emitted: the first-token event at
count 1 with delta equal to the full text so far, cadence events at
counts 4 and 8 with deltas the suffix added since the last emission, and
then a final event, also at count 8, with the full output, empty delta
and `isComplete = true`. -/
theorem generate_stream_cadence8 (eng : EngineRun) (params : GenerateParamsData)
    (w : Wrapper)
    (hl : w.loadState = LoadState.loaded) (hr : w.running = false)
    (hp : eng.prepareFails = false) (hq : eng.performFails = false)
    (hN : params.maxTokens = 8) :
    (generate eng params true w).2.1 =
      [⟨eng.decode 1, eng.decode 1, 1, false⟩,
       ⟨eng.decode 4, (eng.decode 4).drop (eng.decode 1).length, 4, false⟩,
       ⟨eng.decode 8, (eng.decode 8).drop (eng.decode 4).length, 8, false⟩,
       ⟨eng.output, "", 8, true⟩] := by
  have hloop : genLoop eng true 8 =
      { seenFirstToken := true, lastText := eng.decode 8, tokenCount := 8,
        promptTimeMs := eng.promptTimeMs,
        events := [⟨eng.decode 1, eng.decode 1, 1, false⟩,
                   ⟨eng.decode 4, (eng.decode 4).drop (eng.decode 1).length, 4, false⟩,
                   ⟨eng.decode 8, (eng.decode 8).drop (eng.decode 4).length, 8, false⟩] } := rfl
  simp [generate, hl, hr, hp, hq, hN, hloop]

/-- Witness for the amended C6 at a concrete engine run. -/
theorem generate_stream_cadence8_witness :
    (generate engSample { maxTokens := 8 } true wLoaded).2.1 =
      [⟨engSample.decode 1, engSample.decode 1, 1, false⟩,
       ⟨engSample.decode 4, (engSample.decode 4).drop (engSample.decode 1).length, 4, false⟩,
       ⟨engSample.decode 8, (engSample.decode 8).drop (engSample.decode 4).length, 8, false⟩,
       ⟨engSample.output, "", 8, true⟩] :=
  generate_stream_cadence8 engSample { maxTokens := 8 } wLoaded rfl rfl rfl rfl rfl

/-- C10: if `generate` throws after marking the session running (input
preparation or the engine call fails), the running flag stays true: every
subsequent `generate` then fails as already-running and changes nothing,
while `cancel()` and `unload()` reset the flag to false. -/
theorem generate_running_leak (eng eng2 : EngineRun) (params params2 : GenerateParamsData)
    (stream stream2 : Bool) (w : Wrapper)
    (hl : w.loadState = LoadState.loaded) (hr : w.running = false)
    (hf : eng.prepareFails = true ∨ eng.performFails = true) :
    ((generate eng params stream w).1.running = true)
    ∧ (generate eng2 params2 stream2 (generate eng params stream w).1
        = ((generate eng params stream w).1, [],
           Except.error (FastVLMError.generationFailed "Generation already in progress")))
    ∧ (cancel (generate eng params stream w).1).running = false
    ∧ (unload (generate eng params stream w).1).1.running = false := by
  have h1 : (generate eng params stream w).1 = { w with running := true, output := "" } := by
    rcases hf with hf | hf
    · simp [generate, hl, hr, hf]
    · cases hp : eng.prepareFails <;> simp [generate, hl, hr, hf, hp]
  refine ⟨by simp [h1], ?_, by simp [cancel, h1], ?_⟩
  · rw [h1]
    simp [generate, hl]
  · rw [h1]
    cases hls : w.loadState <;> simp [unload, hls]

/-- Witness for C10 at a concrete failing engine run. -/
theorem generate_running_leak_witness :
    ((generate engPrepFail {} true wLoaded).1.running = true)
    ∧ (generate engSample {} true (generate engPrepFail {} true wLoaded).1
        = ((generate engPrepFail {} true wLoaded).1, [],
           Except.error (FastVLMError.generationFailed "Generation already in progress")))
    ∧ (cancel (generate engPrepFail {} true wLoaded).1).running = false
    ∧ (unload (generate engPrepFail {} true wLoaded).1).1.running = false :=
  generate_running_leak engPrepFail engSample {} {} true true wLoaded rfl rfl (Or.inl rfl)

end FastVLM
